import Mathlib

/-!
Shallow embedding of the Sahay (SyncApply) frontend client:
`src/frontend/src/lib/api.js`, `src/frontend/src/Dashboard.jsx` and the
sign-in handler of `src/frontend/src/App.jsx`.

The HTTP world is modelled as an explicit outcome argument: every function
that performs a `fetch` receives the outcome the network would produce and
returns the list of requests it issued together with its result, so that
request counts, headers and endpoints are all provable facts.  Component
state (`useState` hooks) is a record, and each event handler is a function
from the old state (plus the network outcomes of the calls it makes) to the
sequence of intermediate states produced by its setter calls, in order.
-/

namespace Sahay

/-- JavaScript truthiness of a nullable string: `null`/`undefined` and the
empty string are falsy, every other string is truthy.  Used for the
`if (token)` test in `apiRequest` and the `if (!providerToken)` guards in
`Dashboard.jsx`. -/
def truthy : Option String → Bool
  | none => false
  | some s => !(s == "")

/-! ### URLSearchParams form encoding

`fetchEmails` and `processLatestEmail` build their query strings with
`new URLSearchParams(...)`, which serialises in
application/x-www-form-urlencoded form: ASCII alphanumerics and `*-._`
kept, space as `+`, every other character percent-encoded byte by byte
(UTF-8, uppercase hex). -/

/-- Uppercase hexadecimal digit for `n < 16`. -/
def hexDigitChar (n : Nat) : Char :=
  if n < 10 then Char.ofNat (48 + n) else Char.ofNat (55 + n)

/-- UTF-8 bytes (as `Nat`s) of a Unicode code point. -/
def utf8Bytes (n : Nat) : List Nat :=
  if n < 128 then [n]
  else if n < 2048 then [192 + n / 64, 128 + n % 64]
  else if n < 65536 then [224 + n / 4096, 128 + (n / 64) % 64, 128 + n % 64]
  else [240 + n / 262144, 128 + (n / 4096) % 64, 128 + (n / 64) % 64, 128 + n % 64]

/-- Characters `URLSearchParams` leaves unescaped: `[A-Za-z0-9*\-._]`. -/
def formUnreserved (c : Char) : Bool :=
  (65 ≤ c.toNat && c.toNat ≤ 90) || (97 ≤ c.toNat && c.toNat ≤ 122) ||
  (48 ≤ c.toNat && c.toNat ≤ 57) ||
  c == '*' || c == '-' || c == '.' || c == '_'

/-- Percent-encoding of one byte: `%XY` with uppercase hex. -/
def percentByte (b : Nat) : List Char :=
  ['%', hexDigitChar (b / 16 % 16), hexDigitChar (b % 16)]

/-- Form encoding of one character. -/
def formEncodeChar (c : Char) : List Char :=
  if formUnreserved c then [c]
  else if c == ' ' then ['+']
  else ((utf8Bytes c.toNat).map percentByte).flatten

/-- Form encoding of a string. -/
def formEncode (s : String) : String :=
  String.mk ((s.data.map formEncodeChar).flatten)

/-- `new URLSearchParams({k1: v1, ...}).toString()`. -/
def urlSearchParams (ps : List (String × String)) : String :=
  String.intercalate "&" (ps.map fun p => formEncode p.1 ++ "=" ++ formEncode p.2)

/-! ### api.js -/

/-- One HTTP request as issued by `apiRequest` (`lib/api.js` lines 13-26):
the endpoint appended to `API_BASE`, the method from `options.method`
(`fetch` defaults to GET when absent), and the `Authorization` header, set
to `Bearer <token>` exactly when the token argument is truthy.  A constant
`Content-Type: application/json` header is always sent and no call site
passes any `options.headers`, so those fields carry no information and are
omitted. -/
structure Request where
  method : String
  endpoint : String
  authHeader : Option String
deriving Repr, DecidableEq

/-- Body of a non-ok response, as consumed by
`response.json().catch(() => ({detail: 'Unknown error'}))` followed by
`error.detail || 'API request failed'`: either the body failed to parse as
JSON, or it parsed and its `detail` field is the given nullable string. -/
inductive NotOkBody where
  | parseFailed
  | parsed (detail : Option String)
deriving Repr, DecidableEq

/-- The message `apiRequest` throws on a non-ok response (`api.js` lines
28-31): a parse failure yields the fallback object whose `detail` is
`'Unknown error'`; a parsed body yields its `detail` when truthy and
`'API request failed'` otherwise. -/
def notOkMessage : NotOkBody → String
  | NotOkBody.parseFailed => "Unknown error"
  | NotOkBody.parsed d => if truthy d then d.getD "" else "API request failed"

/-- Environment outcome of one `fetch`: the response was ok with JSON body
`b`, or not ok with body `nb`, or `fetch` itself rejected with message `m`
(network error). -/
inductive FetchOutcome (α : Type) where
  | ok (b : α)
  | notOk (nb : NotOkBody)
  | netErr (m : String)

/-- Whether the outcome makes the call throw. -/
def FetchOutcome.fails {α : Type} : FetchOutcome α → Bool
  | FetchOutcome.ok _ => false
  | FetchOutcome.notOk _ => true
  | FetchOutcome.netErr _ => true

/-- The error message produced by a failing outcome (arbitrary on `ok`). -/
def FetchOutcome.errMsg {α : Type} : FetchOutcome α → String
  | FetchOutcome.ok _ => ""
  | FetchOutcome.notOk nb => notOkMessage nb
  | FetchOutcome.netErr m => m

/-- `apiRequest(endpoint, options, token)` (`api.js` lines 13-34): builds
headers (Authorization iff the token is truthy), performs one `fetch`, and
either returns the parsed body or throws.  Returns the list of requests
issued (always the single one) with the result. -/
def apiRequest {α : Type} (endpoint : String) (method : String)
    (token : Option String) (o : FetchOutcome α) :
    List Request × Except String α :=
  let req : Request :=
    { method := method, endpoint := endpoint,
      authHeader :=
        if truthy token then some ("Bearer " ++ token.getD "") else none }
  match o with
  | FetchOutcome.ok b => ([req], Except.ok b)
  | FetchOutcome.notOk nb => ([req], Except.error (notOkMessage nb))
  | FetchOutcome.netErr m => ([req], Except.error m)

/-- `fetchEmails(token, query = 'in:inbox', maxResults = 10)` (`api.js`
lines 39-42): GET `/api/emails?query=...&max_results=...`. -/
def fetchEmails {α : Type} (token : Option String) (query : String)
    (maxResults : Nat) (o : FetchOutcome α) : List Request × Except String α :=
  apiRequest
    ("/api/emails?" ++
      urlSearchParams [("query", query), ("max_results", toString maxResults)])
    "GET" token o

/-- `fetchEmail(token, emailId)` (`api.js` lines 47-49): GET
`/api/emails/{emailId}`.  Exported by the module but imported nowhere. -/
def fetchEmail {α : Type} (token : Option String) (emailId : String)
    (o : FetchOutcome α) : List Request × Except String α :=
  apiRequest ("/api/emails/" ++ emailId) "GET" token o

/-- `saveApplication(token, emailId)` (`api.js` lines 54-56): POST
`/api/applications/save/{emailId}`. -/
def saveApplication {α : Type} (token : Option String) (emailId : String)
    (o : FetchOutcome α) : List Request × Except String α :=
  apiRequest ("/api/applications/save/" ++ emailId) "POST" token o

/-- `getApplications()` (`api.js` lines 61-63): GET `/api/applications`,
with `options` and `token` left at their defaults (`{}` and `null`). -/
def getApplications {α : Type} (o : FetchOutcome α) :
    List Request × Except String α :=
  apiRequest "/api/applications" "GET" none o

/-- `processLatestEmail(token, query = 'in:inbox')` (`api.js` lines 68-71):
POST `/api/applications/process-latest?query=...`. -/
def processLatestEmail {α : Type} (token : Option String) (query : String)
    (o : FetchOutcome α) : List Request × Except String α :=
  apiRequest
    ("/api/applications/process-latest?" ++ urlSearchParams [("query", query)])
    "POST" token o

/-- `healthCheck()` (`api.js` lines 76-78): GET `/` with no token.
Exported by the module but imported nowhere. -/
def healthCheck {α : Type} (o : FetchOutcome α) :
    List Request × Except String α :=
  apiRequest "/" "GET" none o

/-! ### Dashboard.jsx -/

/-- An email summary as rendered by the Dashboard (`Dashboard.jsx` lines
163-189): `id`, `subject`, `sender`, `date`, each possibly absent in the
backend's JSON. -/
structure Email where
  id : String
  subject : Option String
  sender : Option String
  date : Option String
deriving Repr, DecidableEq

/-- An application record as rendered by the Dashboard (`Dashboard.jsx`
lines 208-240). -/
structure Application where
  id : Option String
  company_name : Option String
  job_title : Option String
  applied_date : Option String
  status : Option String
deriving Repr, DecidableEq

/-- The Dashboard component's `useState` hooks (`Dashboard.jsx` lines
28-32). -/
structure DashState where
  emails : List Email
  applications : List Application
  loading : Bool
  error : Option String
  processingId : Option String
deriving Repr, DecidableEq

/-- The initial Dashboard state: `[]`, `[]`, `false`, `null`, `null`. -/
def initState : DashState :=
  { emails := [], applications := [], loading := false,
    error := none, processingId := none }

/-- The guard message of `handleFetchEmails` and `handleProcessLatest`. -/
def noTokenMsg : String := "No Gmail token available. Please sign in again."

/-- `loadApplications` (`Dashboard.jsx` lines 39-46): calls
`getApplications()`; on success stores the result in `applications`; on
failure only `console.error`s, leaving all state unchanged.  Returns the new
state and the requests issued. -/
def loadApplications (o : FetchOutcome (List Application)) (s : DashState) :
    DashState × List Request :=
  let r := getApplications (α := List Application) o
  match r.2 with
  | Except.ok apps => ({ s with applications := apps }, r.1)
  | Except.error _ => (s, r.1)

/-- `handleFetchEmails` (`Dashboard.jsx` lines 48-65) as the sequence of
states its setter calls produce, in order, together with the requests it
issues.  `o` is the network outcome of its `fetchEmails` call; the ok body
is `Option (List Email)` because the handler guards with `result || []`.
On a falsy `providerToken` the handler sets the error message and returns.
Otherwise: `setLoading(true)`, `setError(null)`, the call, then either
`setEmails(result || [])` or `setError(err.message)`, and `setLoading(false)`
in `finally`. -/
def handleFetchEmailsStates (providerToken : Option String)
    (o : FetchOutcome (Option (List Email))) (s : DashState) :
    List DashState × List Request :=
  if truthy providerToken = false then
    ([{ s with error := some noTokenMsg }], [])
  else
    let s1 := { s with loading := true }
    let s2 := { s1 with error := none }
    let r := fetchEmails providerToken "in:inbox" 10 o
    match r.2 with
    | Except.ok result =>
      let s3 := { s2 with emails := result.getD [] }
      ([s1, s2, s3, { s3 with loading := false }], r.1)
    | Except.error msg =>
      let s3 := { s2 with error := some msg }
      ([s1, s2, s3, { s3 with loading := false }], r.1)

/-- The state `handleFetchEmails` leaves behind. -/
def handleFetchEmails (providerToken : Option String)
    (o : FetchOutcome (Option (List Email))) (s : DashState) :
    DashState × List Request :=
  let r := handleFetchEmailsStates providerToken o s
  (r.1.getLastD s, r.2)

/-- `handleProcessLatest` (`Dashboard.jsx` lines 67-83) as its state
sequence plus issued requests.  `o1` is the outcome of
`processLatestEmail(providerToken)` (response body discarded by the
handler), `o2` that of the `loadApplications()` refresh reached only when
the first call succeeds.  The `catch` sets the error message, the `finally`
resets `loading`. -/
def handleProcessLatestStates (providerToken : Option String)
    (o1 : FetchOutcome Unit) (o2 : FetchOutcome (List Application))
    (s : DashState) : List DashState × List Request :=
  if truthy providerToken = false then
    ([{ s with error := some noTokenMsg }], [])
  else
    let s1 := { s with loading := true }
    let s2 := { s1 with error := none }
    let r1 := processLatestEmail providerToken "in:inbox" o1
    match r1.2 with
    | Except.ok _ =>
      let r2 := loadApplications o2 s2
      ([s1, s2, r2.1, { r2.1 with loading := false }], r1.1 ++ r2.2)
    | Except.error msg =>
      let s3 := { s2 with error := some msg }
      ([s1, s2, s3, { s3 with loading := false }], r1.1)

/-- The state `handleProcessLatest` leaves behind. -/
def handleProcessLatest (providerToken : Option String)
    (o1 : FetchOutcome Unit) (o2 : FetchOutcome (List Application))
    (s : DashState) : DashState × List Request :=
  let r := handleProcessLatestStates providerToken o1 o2 s
  (r.1.getLastD s, r.2)

/-- `handleSaveEmail(emailId)` (`Dashboard.jsx` lines 85-97) as its state
sequence plus issued requests.  On a falsy `providerToken` it returns at
once, producing no state update at all.  Otherwise:
`setProcessingId(emailId)`, `saveApplication`, on success the
`loadApplications()` refresh, on failure `setError(err.message)`, and
`setProcessingId(null)` in `finally`. -/
def handleSaveEmailStates (providerToken : Option String) (emailId : String)
    (o1 : FetchOutcome Unit) (o2 : FetchOutcome (List Application))
    (s : DashState) : List DashState × List Request :=
  if truthy providerToken = false then
    ([], [])
  else
    let s1 := { s with processingId := some emailId }
    let r1 := saveApplication providerToken emailId o1
    match r1.2 with
    | Except.ok _ =>
      let r2 := loadApplications o2 s1
      ([s1, r2.1, { r2.1 with processingId := none }], r1.1 ++ r2.2)
    | Except.error msg =>
      let s2 := { s1 with error := some msg }
      ([s1, s2, { s2 with processingId := none }], r1.1)

/-- The state `handleSaveEmail` leaves behind. -/
def handleSaveEmail (providerToken : Option String) (emailId : String)
    (o1 : FetchOutcome Unit) (o2 : FetchOutcome (List Application))
    (s : DashState) : DashState × List Request :=
  let r := handleSaveEmailStates providerToken emailId o1 o2 s
  (r.1.getLastD s, r.2)

/-! ### Rendered attributes (Dashboard.jsx JSX) -/

/-- `disabled={loading}` on the Fetch Emails button (line 122). -/
def fetchButtonDisabled (s : DashState) : Bool := s.loading

/-- `disabled={loading}` on the Process Latest button (line 131). -/
def processButtonDisabled (s : DashState) : Bool := s.loading

/-- The Refresh button (lines 138-144) carries no `disabled` attribute. -/
def refreshButtonDisabled (_ : DashState) : Bool := false

/-- `disabled={processingId === email.id}` on an email row's save button
(line 178): strict equality of the nullable `processingId` with the row's
id. -/
def saveButtonDisabled (s : DashState) (emailId : String) : Bool :=
  s.processingId == some emailId

/-- `{email.subject || 'No Subject'}` (line 172). -/
def emailSubjectDisplay (e : Email) : String :=
  if truthy e.subject then e.subject.getD "" else "No Subject"

/-- `{email.sender}` (line 173). -/
def emailSenderDisplay (e : Email) : Option String := e.sender

/-- `{email.date}` (line 174). -/
def emailDateDisplay (e : Email) : Option String := e.date

/-! ### App.jsx sign-in handler -/

/-- The `App` component's request-lifecycle state: `signInLoading`
(`App.jsx`, `useState(false)` in `App`).  `App` has no error-string state
hook at all. -/
structure AppState where
  signInLoading : Bool
deriving Repr, DecidableEq

/-- Outcome of `signInWithGoogle()`: resolves, or throws with a message. -/
inductive AuthOutcome where
  | success
  | thrown (m : String)
deriving Repr, DecidableEq

/-- `handleGoogleSignIn` (`App.jsx` lines 515-524) as its state sequence:
`setSignInLoading(true)`, `await signInWithGoogle()` whose thrown error is
only `console.error`ed, and `setSignInLoading(false)` in `finally`.  The
sequence is the same whatever the outcome: no error is surfaced to any
state. -/
def handleGoogleSignInStates (_ : AuthOutcome) (s : AppState) :
    List AppState :=
  [{ s with signInLoading := true }, { s with signInLoading := false }]

/-- The state `handleGoogleSignIn` leaves behind. -/
def handleGoogleSignIn (o : AuthOutcome) (s : AppState) : AppState :=
  (handleGoogleSignInStates o s).getLastD s

/-! ### The spec's endpoint list (refinement side)

The following definition is written from the spec's words, not from the
source: spec section 6 lists "the four REST endpoints this client calls on
an unseen backend (GET emails, GET applications, POST save-application,
POST process-latest-email)".  It classifies a request as matching one of
those four. -/

/-- `p` is a prefix of `s` (on code points). -/
def strHasPrefix (s p : String) : Bool :=
  s.data.take p.data.length == p.data

/-- Written from the spec's endpoint list: GET emails, GET applications,
POST save-application, POST process-latest-email, matched against the URL
shapes the client's api module gives those four endpoints. -/
def specFourEndpoints (r : Request) : Bool :=
  (r.method == "GET" && strHasPrefix r.endpoint "/api/emails?") ||
  (r.method == "GET" && r.endpoint == "/api/applications") ||
  (r.method == "POST" && strHasPrefix r.endpoint "/api/applications/save/") ||
  (r.method == "POST" && strHasPrefix r.endpoint "/api/applications/process-latest?")

/-- A concrete email summary used to instantiate theorems. -/
def sampleEmail : Email :=
  { id := "m1", subject := some "hi", sender := some "a@b",
    date := some "2025-01-01" }

/-- A concrete successful email-fetch outcome: one email. -/
def sampleOk : FetchOutcome (Option (List Email)) :=
  FetchOutcome.ok (some [sampleEmail])

/-- The request `healthCheck` issues. -/
def healthRequest : Request :=
  { method := "GET", endpoint := "/", authHeader := none }

/-- The request `fetchEmail (some "t") "m1"` issues. -/
def emailByIdRequest : Request :=
  { method := "GET", endpoint := "/api/emails/m1",
    authHeader := some "Bearer t" }

/-- The request `fetchEmails (some "t") "in:inbox" 10` issues. -/
def sampleFetchRequest : Request :=
  { method := "GET", endpoint := "/api/emails?query=in%3Ainbox&max_results=10",
    authHeader := some "Bearer t" }

/-- Appending never breaks a prefix: the concatenation `a ++ b` starts
with `a`. -/
theorem strHasPrefix_append (a b : String) : strHasPrefix (a ++ b) a = true := by
  simp [strHasPrefix, String.data_append, List.take_left]

/-! ### Theorems about the claims -/

/-- C9: when `providerToken` is `null`, `handleFetchEmails` and
`handleProcessLatest` set the error state to the no-token message and
return without issuing any HTTP request or changing any other state, and
`handleSaveEmail` returns with no HTTP request and no state change at
all. -/
theorem null_token_guards :
    ∀ (s : DashState) (o : FetchOutcome (Option (List Email)))
      (o1 : FetchOutcome Unit) (o2 : FetchOutcome (List Application))
      (emailId : String),
      handleFetchEmails none o s = ({ s with error := some noTokenMsg }, []) ∧
      handleProcessLatest none o1 o2 s
        = ({ s with error := some noTokenMsg }, []) ∧
      handleSaveEmail none emailId o1 o2 s = (s, []) := by
  intro s o o1 o2 emailId
  refine ⟨?_, ?_, ?_⟩ <;>
    simp [handleFetchEmails, handleFetchEmailsStates,
      handleProcessLatest, handleProcessLatestStates,
      handleSaveEmail, handleSaveEmailStates, truthy]

/-- C10: every Dashboard handler that sets a loading indicator resets it
in a `finally` block: starting from a state whose indicators are idle (as
they are whenever the corresponding button is clickable), any completed
invocation of `handleFetchEmails` or `handleProcessLatest` leaves
`loading = false`, and any completed invocation of `handleSaveEmail`
leaves `processingId = null`, whatever the token and network outcomes. -/
theorem indicators_reset_on_completion :
    ∀ (tok : Option String) (s : DashState)
      (o : FetchOutcome (Option (List Email))) (o1 : FetchOutcome Unit)
      (o2 : FetchOutcome (List Application)) (emailId : String),
      s.loading = false → s.processingId = none →
      (handleFetchEmails tok o s).1.loading = false ∧
      (handleProcessLatest tok o1 o2 s).1.loading = false ∧
      (handleSaveEmail tok emailId o1 o2 s).1.processingId = none := by
  intro tok s o o1 o2 emailId hl hp
  cases h : truthy tok
  · refine ⟨?_, ?_, ?_⟩ <;>
      simp [handleFetchEmails, handleFetchEmailsStates,
        handleProcessLatest, handleProcessLatestStates,
        handleSaveEmail, handleSaveEmailStates, h, hl, hp]
  · refine ⟨?_, ?_, ?_⟩
    · cases o <;>
        simp [handleFetchEmails, handleFetchEmailsStates, h,
          fetchEmails, apiRequest]
    · cases o1 <;> cases o2 <;>
        simp [handleProcessLatest, handleProcessLatestStates, h,
          processLatestEmail, loadApplications, getApplications, apiRequest]
    · cases o1 <;> cases o2 <;>
        simp [handleSaveEmail, handleSaveEmailStates, h,
          saveApplication, loadApplications, getApplications, apiRequest]

/-- Witness for `indicators_reset_on_completion` at the initial state with
a truthy token and a failing network. -/
theorem indicators_reset_on_completion_witness :
    initState.loading = false ∧ initState.processingId = none ∧
    ((handleFetchEmails (some "t") (FetchOutcome.netErr "x") initState).1.loading
        = false ∧
      (handleProcessLatest (some "t") (FetchOutcome.netErr "x")
          (FetchOutcome.ok []) initState).1.loading = false ∧
      (handleSaveEmail (some "t") "m1" (FetchOutcome.netErr "x")
          (FetchOutcome.ok []) initState).1.processingId = none) :=
  ⟨rfl, rfl,
    indicators_reset_on_completion (some "t") initState
      (FetchOutcome.netErr "x") (FetchOutcome.netErr "x")
      (FetchOutcome.ok []) "m1" rfl rfl⟩

/-- C5: every `apiRequest` invocation performs exactly one fetch; a non-ok
response makes it throw the computed message immediately and a rejected
fetch propagates, with no retry; and no handler's request trace repeats a
request (no retry or partial-failure recovery anywhere in the client). -/
theorem apiRequest_single_fetch_no_retry :
    ∀ (α : Type) (endpoint method msg : String) (token tok : Option String)
      (o : FetchOutcome α) (nb : NotOkBody) (s : DashState)
      (oe : FetchOutcome (Option (List Email))) (o1 : FetchOutcome Unit)
      (o2 : FetchOutcome (List Application)) (emailId : String),
      (apiRequest endpoint method token o).1.length = 1 ∧
      (apiRequest endpoint method token (FetchOutcome.notOk nb : FetchOutcome α)).2
        = Except.error (notOkMessage nb) ∧
      (apiRequest endpoint method token (FetchOutcome.netErr msg : FetchOutcome α)).2
        = Except.error msg ∧
      (handleFetchEmails tok oe s).2.Nodup ∧
      (handleProcessLatest tok o1 o2 s).2.Nodup ∧
      (handleSaveEmail tok emailId o1 o2 s).2.Nodup ∧
      (loadApplications o2 s).2.Nodup := by
  intro α endpoint method msg token tok o nb s oe o1 o2 emailId
  refine ⟨by cases o <;> rfl, rfl, rfl, ?_, ?_, ?_, ?_⟩
  · cases h : truthy tok <;> cases oe <;>
      simp [handleFetchEmails, handleFetchEmailsStates, h,
        fetchEmails, apiRequest]
  · cases h : truthy tok <;> cases o1 <;> cases o2 <;>
      simp [handleProcessLatest, handleProcessLatestStates, h,
        processLatestEmail, loadApplications, getApplications, apiRequest,
        Request.mk.injEq]
  · cases h : truthy tok <;> cases o1 <;> cases o2 <;>
      simp [handleSaveEmail, handleSaveEmailStates, h,
        saveApplication, loadApplications, getApplications, apiRequest,
        Request.mk.injEq]
  · cases o2 <;> simp [loadApplications, getApplications, apiRequest]

/-- C8 counterexample: the empty string is a non-null token, yet
`apiRequest` attaches no Authorization header for it (`if (token)` tests
JavaScript truthiness, and `''` is falsy), refuting "attaches a Bearer
header if and only if a non-null token argument is supplied". -/
theorem empty_token_no_authHeader :
    (some "" : Option String) ≠ none ∧
    (fetchEmails (α := Unit) (some "") "in:inbox" 10 (FetchOutcome.ok ())).1
      = [{ method := "GET",
           endpoint := "/api/emails?query=in%3Ainbox&max_results=10",
           authHeader := none }] := by
  exact ⟨by decide, by decide⟩

/-- C8 amended: `apiRequest` attaches `Authorization: Bearer <token>` if
and only if the token argument is truthy (non-null and non-empty);
`getApplications` always sends no Authorization header, while
`fetchEmails`, `fetchEmail`, `saveApplication` and `processLatestEmail`
forward the caller's token as Bearer whenever it is truthy. -/
theorem authHeader_iff_truthy_token :
    ∀ (α : Type) (endpoint method query emailId : String) (maxResults : Nat)
      (token : Option String) (o : FetchOutcome α),
      ((apiRequest endpoint method token o).1.map Request.authHeader
        = [if truthy token then some ("Bearer " ++ token.getD "") else none]) ∧
      ((getApplications (α := α) o).1.map Request.authHeader = [none]) ∧
      ((fetchEmails (α := α) token query maxResults o).1.map Request.authHeader
        = [if truthy token then some ("Bearer " ++ token.getD "") else none]) ∧
      ((fetchEmail (α := α) token emailId o).1.map Request.authHeader
        = [if truthy token then some ("Bearer " ++ token.getD "") else none]) ∧
      ((saveApplication (α := α) token emailId o).1.map Request.authHeader
        = [if truthy token then some ("Bearer " ++ token.getD "") else none]) ∧
      ((processLatestEmail (α := α) token query o).1.map Request.authHeader
        = [if truthy token then some ("Bearer " ++ token.getD "") else none]) := by
  intro α endpoint method query emailId maxResults token o
  refine ⟨?_, ?_, ?_, ?_, ?_, ?_⟩ <;> cases o <;>
    simp [apiRequest, getApplications, fetchEmails, fetchEmail,
      saveApplication, processLatestEmail, truthy]

/-- C6: email summaries are stored and rendered verbatim: the only
operation that writes the `emails` state is a successful
`handleFetchEmails`, which stores the backend's response list unchanged
(`null` becomes `[]`); every other handler outcome, and `loadApplications`,
leaves `emails` exactly as it was, so no field of a stored email object is
ever mutated. -/
theorem emails_stored_verbatim :
    ∀ (tok : Option String) (s : DashState)
      (o : FetchOutcome (Option (List Email))) (o1 : FetchOutcome Unit)
      (o2 : FetchOutcome (List Application)) (emailId : String),
      ((handleFetchEmails tok o s).1.emails = s.emails ∨
        (∃ res, o = FetchOutcome.ok res ∧
          (handleFetchEmails tok o s).1.emails = res.getD [])) ∧
      (handleProcessLatest tok o1 o2 s).1.emails = s.emails ∧
      (handleSaveEmail tok emailId o1 o2 s).1.emails = s.emails ∧
      (loadApplications o2 s).1.emails = s.emails := by
  intro tok s o o1 o2 emailId
  refine ⟨?_, ?_, ?_, ?_⟩
  · cases h : truthy tok
    · left
      simp [handleFetchEmails, handleFetchEmailsStates, h]
    · cases o
      · right
        exact ⟨_, rfl, by
          simp [handleFetchEmails, handleFetchEmailsStates, h,
            fetchEmails, apiRequest]⟩
      · left
        simp [handleFetchEmails, handleFetchEmailsStates, h,
          fetchEmails, apiRequest]
      · left
        simp [handleFetchEmails, handleFetchEmailsStates, h,
          fetchEmails, apiRequest]
  · cases h : truthy tok <;> cases o1 <;> cases o2 <;>
      simp [handleProcessLatest, handleProcessLatestStates, h,
        processLatestEmail, loadApplications, getApplications, apiRequest]
  · cases h : truthy tok <;> cases o1 <;> cases o2 <;>
      simp [handleSaveEmail, handleSaveEmailStates, h,
        saveApplication, loadApplications, getApplications, apiRequest]
  · cases o2 <;> simp [loadApplications, getApplications, apiRequest]

/-- C4 counterexample: the empty string is a non-null `providerToken`,
yet `handleFetchEmails` run with it takes the falsy-token guard
(`if (!providerToken)` tests JavaScript truthiness and `''` is falsy):
its only state update sets the guard error message — `loading` is never
set to true, no request is issued, and the successful response is never
stored — refuting the claimed lifecycle for every non-null token. -/
theorem empty_token_skips_fetch_lifecycle :
    (some "" : Option String) ≠ none ∧
    (handleFetchEmailsStates (some "") sampleOk initState).1
      = [{ initState with error := some noTokenMsg }] ∧
    (handleFetchEmails (some "") sampleOk initState).1.loading = false ∧
    (handleFetchEmails (some "") sampleOk initState).1.emails = [] ∧
    (handleFetchEmails (some "") sampleOk initState).2 = [] := by
  refine ⟨by decide, by decide, by decide, by decide, by decide⟩

/-- C4 amended: with a truthy (non-null and non-empty) `providerToken`,
`handleFetchEmails` first sets `loading` to true and then clears the
error; when it finishes, either the `emails` state holds the response
(and the error is still null) or the error state holds the failure
message, and in both outcomes `loading` is false. -/
theorem handleFetchEmails_lifecycle :
    ∀ (tok : Option String) (s : DashState)
      (o : FetchOutcome (Option (List Email))),
      truthy tok = true →
      (handleFetchEmailsStates tok o s).1.head? = some { s with loading := true } ∧
      (handleFetchEmailsStates tok o s).1[1]?
        = some { s with loading := true, error := none } ∧
      (handleFetchEmails tok o s).1.loading = false ∧
      (∀ res, o = FetchOutcome.ok res →
        (handleFetchEmails tok o s).1.emails = res.getD [] ∧
        (handleFetchEmails tok o s).1.error = none) ∧
      (o.fails = true →
        (handleFetchEmails tok o s).1.error = some o.errMsg) := by
  intro tok s o h
  cases o <;>
    simp [handleFetchEmails, handleFetchEmailsStates, h,
      fetchEmails, apiRequest, FetchOutcome.fails, FetchOutcome.errMsg]

/-- Witness for `handleFetchEmails_lifecycle` with a concrete token, a
one-email response and the initial state. -/
theorem handleFetchEmails_lifecycle_witness :
    truthy (some "t") = true ∧
    sampleOk = FetchOutcome.ok (some [sampleEmail]) ∧
    (handleFetchEmailsStates (some "t") sampleOk initState).1.head?
      = some { initState with loading := true } ∧
    (handleFetchEmails (some "t") sampleOk initState).1.loading = false ∧
    (handleFetchEmails (some "t") sampleOk initState).1.emails
      = [sampleEmail] ∧
    (handleFetchEmails (some "t") sampleOk initState).1.error = none :=
  ⟨rfl, rfl,
    (handleFetchEmails_lifecycle (some "t") initState sampleOk rfl).1,
    (handleFetchEmails_lifecycle (some "t") initState sampleOk rfl).2.2.1,
    ((handleFetchEmails_lifecycle (some "t") initState sampleOk rfl).2.2.2.1
      (some [sampleEmail]) rfl).1,
    ((handleFetchEmails_lifecycle (some "t") initState sampleOk rfl).2.2.2.1
      (some [sampleEmail]) rfl).2⟩

/-- C1 counterexample: `loadApplications`' network failure is caught but
never stored in the UI error state — the call throws `network down`, yet
the Dashboard's `error` state stays `null` (the catch only
`console.error`s), so this caught failure never reaches the banner. -/
theorem loadApplications_swallows_failure :
    (getApplications (α := List Application) (FetchOutcome.netErr "network down")).2
      = Except.error "network down" ∧
    (loadApplications (FetchOutcome.netErr "network down") initState).1.error
      = none :=
  ⟨rfl, rfl⟩

/-- C1 amended: only the three feature handlers (`handleFetchEmails`,
`handleProcessLatest`, `handleSaveEmail`) convert a caught failure to a
display string in the UI error state; `loadApplications` and
`handleGoogleSignIn` catch their failures but only log them to the
console, leaving the Dashboard error state unchanged (and `App` has no
error state at all), whatever the outcome. -/
theorem errorDisplay_feature_handlers_only :
    ∀ (tok : Option String) (s : DashState)
      (o : FetchOutcome (Option (List Email))) (o1 : FetchOutcome Unit)
      (o2 : FetchOutcome (List Application)) (emailId : String)
      (ao : AuthOutcome) (a : AppState),
      (truthy tok = true → o.fails = true →
        (handleFetchEmails tok o s).1.error = some o.errMsg) ∧
      (truthy tok = true → o1.fails = true →
        (handleProcessLatest tok o1 o2 s).1.error = some o1.errMsg) ∧
      (truthy tok = true → o1.fails = true →
        (handleSaveEmail tok emailId o1 o2 s).1.error = some o1.errMsg) ∧
      (loadApplications o2 s).1.error = s.error ∧
      handleGoogleSignIn ao a = { a with signInLoading := false } := by
  intro tok s o o1 o2 emailId ao a
  refine ⟨?_, ?_, ?_, ?_, ?_⟩
  · intro h hf
    cases o <;>
      simp_all [handleFetchEmails, handleFetchEmailsStates,
        fetchEmails, apiRequest, FetchOutcome.fails, FetchOutcome.errMsg]
  · intro h hf
    cases o1 <;> cases o2 <;>
      simp_all [handleProcessLatest, handleProcessLatestStates,
        processLatestEmail, loadApplications, getApplications, apiRequest,
        FetchOutcome.fails, FetchOutcome.errMsg]
  · intro h hf
    cases o1 <;> cases o2 <;>
      simp_all [handleSaveEmail, handleSaveEmailStates,
        saveApplication, loadApplications, getApplications, apiRequest,
        FetchOutcome.fails, FetchOutcome.errMsg]
  · cases o2 <;> simp [loadApplications, getApplications, apiRequest]
  · rfl

/-- Witness for `errorDisplay_feature_handlers_only`: a truthy token and
failing feature calls at the initial state. -/
theorem errorDisplay_feature_handlers_only_witness :
    truthy (some "t") = true ∧
    (FetchOutcome.netErr "x" : FetchOutcome (Option (List Email))).fails = true ∧
    (FetchOutcome.netErr "y" : FetchOutcome Unit).fails = true ∧
    (handleFetchEmails (some "t") (FetchOutcome.netErr "x") initState).1.error
      = some "x" ∧
    (handleProcessLatest (some "t") (FetchOutcome.netErr "y")
        (FetchOutcome.ok []) initState).1.error = some "y" ∧
    (handleSaveEmail (some "t") "m1" (FetchOutcome.netErr "y")
        (FetchOutcome.ok []) initState).1.error = some "y" :=
  ⟨rfl, rfl, rfl,
    (errorDisplay_feature_handlers_only (some "t") initState
      (FetchOutcome.netErr "x") (FetchOutcome.netErr "y")
      (FetchOutcome.ok []) "m1" AuthOutcome.success
      { signInLoading := false }).1 rfl rfl,
    (errorDisplay_feature_handlers_only (some "t") initState
      (FetchOutcome.netErr "x") (FetchOutcome.netErr "y")
      (FetchOutcome.ok []) "m1" AuthOutcome.success
      { signInLoading := false }).2.1 rfl rfl,
    (errorDisplay_feature_handlers_only (some "t") initState
      (FetchOutcome.netErr "x") (FetchOutcome.netErr "y")
      (FetchOutcome.ok []) "m1" AuthOutcome.success
      { signInLoading := false }).2.2.1 rfl rfl⟩

/-- C2 counterexample: with a token and a successful feature call,
`handleProcessLatest` issues two HTTP requests (the process-latest POST
followed by the `loadApplications()` refresh), not exactly one. -/
theorem handleProcessLatest_two_requests :
    (handleProcessLatest (some "t") (FetchOutcome.ok ()) (FetchOutcome.ok [])
        initState).2.length = 2 := by
  decide

/-- C2 amended: with a truthy token, `handleFetchEmails` issues exactly
one HTTP call, while `handleProcessLatest` and `handleSaveEmail` issue
their single feature call and, when it succeeds, one further
`getApplications` refresh call (so one call on failure, two on success);
each feature call is wrapped in a try/catch whose catch branch sets the
error string state. -/
theorem handler_request_traces :
    ∀ (tok : Option String) (s : DashState)
      (o : FetchOutcome (Option (List Email))) (o1 : FetchOutcome Unit)
      (o2 : FetchOutcome (List Application)) (emailId : String),
      truthy tok = true →
      (handleFetchEmails tok o s).2.length = 1 ∧
      (handleProcessLatest tok o1 o2 s).2.length
        = (if o1.fails then 1 else 2) ∧
      (handleSaveEmail tok emailId o1 o2 s).2.length
        = (if o1.fails then 1 else 2) ∧
      (o1.fails = false →
        (handleProcessLatest tok o1 o2 s).2
          = (processLatestEmail (α := Unit) tok "in:inbox" o1).1 ++
            (getApplications (α := List Application) o2).1 ∧
        (handleSaveEmail tok emailId o1 o2 s).2
          = (saveApplication (α := Unit) tok emailId o1).1 ++
            (getApplications (α := List Application) o2).1) ∧
      (o.fails = true → (handleFetchEmails tok o s).1.error = some o.errMsg) ∧
      (o1.fails = true →
        (handleProcessLatest tok o1 o2 s).1.error = some o1.errMsg ∧
        (handleSaveEmail tok emailId o1 o2 s).1.error = some o1.errMsg) := by
  intro tok s o o1 o2 emailId h
  refine ⟨?_, ?_, ?_, ?_, ?_, ?_⟩
  · cases o <;>
      simp [handleFetchEmails, handleFetchEmailsStates, h,
        fetchEmails, apiRequest]
  · cases o1 <;> cases o2 <;>
      simp [handleProcessLatest, handleProcessLatestStates, h,
        processLatestEmail, loadApplications, getApplications, apiRequest,
        FetchOutcome.fails]
  · cases o1 <;> cases o2 <;>
      simp [handleSaveEmail, handleSaveEmailStates, h,
        saveApplication, loadApplications, getApplications, apiRequest,
        FetchOutcome.fails]
  · intro hf
    cases o1 <;> cases o2 <;>
      simp_all [handleProcessLatest, handleProcessLatestStates,
        handleSaveEmail, handleSaveEmailStates,
        processLatestEmail, saveApplication, loadApplications,
        getApplications, apiRequest, FetchOutcome.fails]
  · intro hf
    cases o <;>
      simp_all [handleFetchEmails, handleFetchEmailsStates,
        fetchEmails, apiRequest, FetchOutcome.fails, FetchOutcome.errMsg]
  · intro hf
    cases o1 <;> cases o2 <;>
      simp_all [handleProcessLatest, handleProcessLatestStates,
        handleSaveEmail, handleSaveEmailStates,
        processLatestEmail, saveApplication, loadApplications,
        getApplications, apiRequest, FetchOutcome.fails, FetchOutcome.errMsg]

/-- Witness for `handler_request_traces`: a truthy token, a successful
process call and a failing fetch at the initial state. -/
theorem handler_request_traces_witness :
    truthy (some "t") = true ∧
    (FetchOutcome.ok () : FetchOutcome Unit).fails = false ∧
    (FetchOutcome.netErr "x" : FetchOutcome (Option (List Email))).fails = true ∧
    (handleFetchEmails (some "t") (FetchOutcome.netErr "x") initState).2.length
      = 1 ∧
    (handleProcessLatest (some "t") (FetchOutcome.ok ()) (FetchOutcome.ok [])
        initState).2
      = (processLatestEmail (α := Unit) (some "t") "in:inbox"
          (FetchOutcome.ok ())).1 ++
        (getApplications (α := List Application) (FetchOutcome.ok [])).1 ∧
    (handleFetchEmails (some "t") (FetchOutcome.netErr "x") initState).1.error
      = some "x" :=
  ⟨rfl, rfl, rfl,
    (handler_request_traces (some "t") initState (FetchOutcome.netErr "x")
      (FetchOutcome.ok ()) (FetchOutcome.ok []) "m1" rfl).1,
    ((handler_request_traces (some "t") initState (FetchOutcome.netErr "x")
      (FetchOutcome.ok ()) (FetchOutcome.ok []) "m1" rfl).2.2.2.1 rfl).1,
    (handler_request_traces (some "t") initState (FetchOutcome.netErr "x")
      (FetchOutcome.ok ()) (FetchOutcome.ok []) "m1" rfl).2.2.2.2.1 rfl⟩

/-- C3 counterexample: the api module contains functions targeting
endpoints outside the four — `healthCheck` issues GET `/` and
`fetchEmail` issues GET `/api/emails/{id}`, neither of which matches the
spec's four-endpoint list. -/
theorem api_module_extra_endpoints :
    (healthCheck (α := Unit) (FetchOutcome.ok ())).1 = [healthRequest] ∧
    specFourEndpoints healthRequest = false ∧
    (fetchEmail (α := Unit) (some "t") "m1" (FetchOutcome.ok ())).1
      = [emailByIdRequest] ∧
    specFourEndpoints emailByIdRequest = false := by
  refine ⟨by decide, by decide, by decide, by decide⟩

/-- C3 amended: the set of backend endpoints the UI actually invokes is
exactly the spec's four — every request any Dashboard handler (or its
`loadApplications` refresh) can issue matches GET emails, GET
applications, POST save-application or POST process-latest-email — but
the api module additionally defines `fetchEmail` (GET `/api/emails/{id}`)
and `healthCheck` (GET `/`), which no component ever imports or calls. -/
theorem dashboard_requests_within_spec_endpoints :
    ∀ (tok : Option String) (s : DashState)
      (o : FetchOutcome (Option (List Email))) (o1 : FetchOutcome Unit)
      (o2 : FetchOutcome (List Application)) (emailId : String) (r : Request),
      (r ∈ (handleFetchEmails tok o s).2 → specFourEndpoints r = true) ∧
      (r ∈ (handleProcessLatest tok o1 o2 s).2 → specFourEndpoints r = true) ∧
      (r ∈ (handleSaveEmail tok emailId o1 o2 s).2 → specFourEndpoints r = true) ∧
      (r ∈ (loadApplications o2 s).2 → specFourEndpoints r = true) := by
  intro tok s o o1 o2 emailId r
  have hEmails : ∀ (q : String) (a : Option String),
      specFourEndpoints
        { method := "GET", endpoint := "/api/emails?" ++ q, authHeader := a }
        = true := by
    intro q a
    simp [specFourEndpoints, strHasPrefix_append]
  have hApps : ∀ (a : Option String),
      specFourEndpoints
        { method := "GET", endpoint := "/api/applications", authHeader := a }
        = true := by
    intro a
    simp [specFourEndpoints]
  have hSave : ∀ (i : String) (a : Option String),
      specFourEndpoints
        { method := "POST", endpoint := "/api/applications/save/" ++ i,
          authHeader := a } = true := by
    intro i a
    simp [specFourEndpoints, strHasPrefix_append]
  have hProc : ∀ (q : String) (a : Option String),
      specFourEndpoints
        { method := "POST",
          endpoint := "/api/applications/process-latest?" ++ q,
          authHeader := a } = true := by
    intro q a
    simp [specFourEndpoints, strHasPrefix_append]
  refine ⟨?_, ?_, ?_, ?_⟩
  · cases h : truthy tok
    · simp [handleFetchEmails, handleFetchEmailsStates, h]
    · cases o <;>
        (simp [handleFetchEmails, handleFetchEmailsStates, h,
          fetchEmails, apiRequest];
         rintro rfl; exact hEmails _ _)
  · cases h : truthy tok
    · simp [handleProcessLatest, handleProcessLatestStates, h]
    · cases o1 <;> cases o2 <;>
        (simp [handleProcessLatest, handleProcessLatestStates, h,
          processLatestEmail, loadApplications, getApplications, apiRequest];
         first
          | (rintro (rfl | rfl)
             · exact hProc _ _
             · exact hApps _)
          | (rintro rfl; exact hProc _ _))
  · cases h : truthy tok
    · simp [handleSaveEmail, handleSaveEmailStates, h]
    · cases o1 <;> cases o2 <;>
        (simp [handleSaveEmail, handleSaveEmailStates, h,
          saveApplication, loadApplications, getApplications, apiRequest];
         first
          | (rintro (rfl | rfl)
             · exact hSave _ _
             · exact hApps _)
          | (rintro rfl; exact hSave _ _))
  · cases o2 <;>
      (simp [loadApplications, getApplications, apiRequest];
       rintro rfl; exact hApps _)

/-- Witness for `dashboard_requests_within_spec_endpoints`: the single
request of a concrete successful `handleFetchEmails` run matches the
four-endpoint list. -/
theorem dashboard_requests_within_spec_endpoints_witness :
    sampleFetchRequest ∈ (handleFetchEmails (some "t") sampleOk initState).2 ∧
    specFourEndpoints sampleFetchRequest = true :=
  ⟨by decide,
    (dashboard_requests_within_spec_endpoints (some "t") initState sampleOk
      (FetchOutcome.ok ()) (FetchOutcome.ok []) "m1" sampleFetchRequest).1
      (by decide)⟩

/-- C7 counterexample: the Fetch Emails and Process Latest buttons share
one `loading` flag — while a `handleFetchEmails` run is in flight the
Process Latest button is disabled too (and vice versa), so the flags are
not per-button independent. -/
theorem shared_loading_flag_couples_buttons :
    fetchButtonDisabled initState = false ∧
    processButtonDisabled initState = false ∧
    processButtonDisabled
      ((handleFetchEmailsStates (some "t") sampleOk initState).1.headD initState)
      = true ∧
    fetchButtonDisabled
      ((handleProcessLatestStates (some "t") (FetchOutcome.ok ())
          (FetchOutcome.ok []) initState).1.headD initState) = true := by
  refine ⟨rfl, rfl, by decide, by decide⟩

/-- C7 amended: the Dashboard's request-lifecycle state is one shared
boolean `loading` flag driving the `disabled` attribute of both the Fetch
Emails and Process Latest buttons, plus a nullable `processingId` that
disables exactly the save button of the matching email row; the Refresh
button is never disabled. -/
theorem button_disabled_flags :
    ∀ (s : DashState) (emailId : String),
      fetchButtonDisabled s = s.loading ∧
      processButtonDisabled s = s.loading ∧
      refreshButtonDisabled s = false ∧
      saveButtonDisabled s emailId = (s.processingId == some emailId) := by
  intro s emailId
  exact ⟨rfl, rfl, rfl, rfl⟩

end Sahay
